import Mathlib

/-!
Shallow embedding of the SpeakInsights playbook engine
(`backend/app/services/playbooks.py` and the playbook-dispatch part of
`backend/app/api/routes/query.py`).

A pandas `DataFrame` is modelled as a list of named columns over a common
row count.  Cell values are exact rationals, strings, or null (NaN/None).
A column carries its pandas dtype as a flag `dtypeNum`; `select_dtypes
(include="number")` keeps exactly the columns with that flag.  Statistics
are computed over `ℚ`; the only genuinely irrational quantity in the
source, the Pearson correlation coefficient, is modelled exactly in `ℝ`
via `Real.sqrt`.  Python's `round(x, k)` is modelled as rounding to the
nearest multiple of `10⁻ᵏ` (Python rounds binary floats half-to-even;
no claim exercises an exact tie, so the tie-breaking direction is
immaterial here).
-/

inductive Cell where
  | num (q : ℚ)
  | str (s : String)
  | null
deriving DecidableEq

/-- True for NaN/None cells; pandas treats them as missing everywhere. -/
def Cell.isNull : Cell → Bool
  | Cell.null => true
  | _ => false

/-- Numeric view of a cell, `pd.to_numeric(errors="coerce")` on a numeric
dtype column followed by `dropna` is `filterMap toQ` below.  (Strings never
occur in numeric-dtype columns; numeric-looking strings in object columns
are not modelled, the data arrives typed from SQLite.) -/
def Cell.toQ : Cell → Option ℚ
  | Cell.num q => some q
  | _ => none

/-- A numeric-dtype column holds only numbers and NaNs. -/
def Cell.isNumOrNull : Cell → Bool
  | Cell.str _ => false
  | _ => true

/-- Models Python `str(value)` for category labels.  Integral rationals
print like Python ints; the remaining cases are display-only and no claim
inspects their exact text. -/
def Cell.toDisplay : Cell → String
  | Cell.num q => if q.den = 1 then toString q.num else toString q
  | Cell.str s => s
  | Cell.null => "nan"

structure Column where
  name : String
  dtypeNum : Bool
  cells : List Cell
deriving DecidableEq

instance : Inhabited Column := ⟨⟨"", false, []⟩⟩

structure DataFrame where
  nRows : ℕ
  cols : List Column
deriving DecidableEq

/-- Well-formed frame: every column has `nRows` cells, numeric-dtype
columns hold only numbers/NaNs, and column names are unique (frames built
from row dictionaries always have unique names). -/
def DataFrame.wf (df : DataFrame) : Prop :=
  (∀ c ∈ df.cols, c.cells.length = df.nRows ∧
      (c.dtypeNum = true → ∀ x ∈ c.cells, x.isNumOrNull = true)) ∧
    (df.cols.map Column.name).Nodup

instance (df : DataFrame) : Decidable df.wf := by
  unfold DataFrame.wf; infer_instance

def DataFrame.colNames (df : DataFrame) : List String := df.cols.map Column.name

/-- `df[name]`: first column with the given name. -/
def DataFrame.findCol (df : DataFrame) (n : String) : Option Column :=
  df.cols.find? (fun c => c.name == n)

/-- `df.select_dtypes(include="number")`. -/
def DataFrame.selectNumeric (df : DataFrame) : DataFrame :=
  ⟨df.nRows, df.cols.filter (fun c => c.dtypeNum)⟩

/-- Cell of a column at a row index (out of range reads as NaN; never hit
on well-formed frames). -/
def Column.cellAt (c : Column) (i : ℕ) : Cell := c.cells.getD i Cell.null

/-- Restrict a frame to a set of row indices (used for boolean-mask
filtering). -/
def DataFrame.keepRows (df : DataFrame) (idx : List ℕ) : DataFrame :=
  ⟨idx.length, df.cols.map (fun c => { c with cells := idx.map c.cellAt })⟩

/-- `df.dropna()`: drop every row with a NaN in any column. -/
def DataFrame.dropnaRows (df : DataFrame) : DataFrame :=
  df.keepRows ((List.range df.nRows).filter
    (fun i => df.cols.all (fun c => !(c.cellAt i).isNull)))

/-- Non-null numeric values of a column, in row order:
`pd.to_numeric(col, errors="coerce").dropna()`. -/
def Column.qcells (c : Column) : List ℚ := c.cells.filterMap Cell.toQ

/-- Non-null cells of a column, in row order. -/
def Column.nonNullCells (c : Column) : List Cell :=
  c.cells.filter (fun x => !x.isNull)

/-- `col.nunique(dropna=True)`: distinct non-null value count. -/
def Column.nuniqueDropna (c : Column) : ℕ := c.nonNullCells.dedup.length

/-- Row indices whose cell in `c` equals `v` (`df[df[col] == v]`); pandas
`==` is false whenever either side is NaN/None. -/
def DataFrame.rowsEq (df : DataFrame) (c : Column) (v : Cell) : List ℕ :=
  (List.range df.nRows).filter (fun i =>
    match c.cellAt i, v with
    | Cell.null, _ => false
    | _, Cell.null => false
    | a, b => a == b)

/-! ### Rational statistics -/

def qsum (xs : List ℚ) : ℚ := xs.sum

/-- Mean; on the empty list this is `0/0 = 0` in `ℚ`, which models the
NaN pandas produces there (the call sites either guard emptiness or are
noted where the NaN value itself is never inspected). -/
def qmean (xs : List ℚ) : ℚ := xs.sum / xs.length

def qmin : List ℚ → ℚ
  | [] => 0
  | x :: xs => xs.foldl min x

def qmax : List ℚ → ℚ
  | [] => 0
  | x :: xs => xs.foldl max x

/-- Median as pandas computes it: middle of the sorted list, averaging
the two middles for even length. -/
def qmedian (xs : List ℚ) : ℚ :=
  let s := xs.insertionSort (· ≤ ·)
  let n := xs.length
  if n % 2 = 1 then s.getD (n / 2) 0
  else (s.getD (n / 2 - 1) 0 + s.getD (n / 2) 0) / 2

/-- Unnormalised covariance `Σ (x-x̄)(y-ȳ)` over the zipped lists.  The
`1/(n-1)` factors of the sample covariance cancel in every correlation
ratio, so they are left out. -/
def covS (xs ys : List ℚ) : ℚ :=
  ((xs.zip ys).map (fun p => (p.1 - qmean xs) * (p.2 - qmean ys))).sum

/-- Unnormalised variance `Σ (x-x̄)²`. -/
def varS (xs : List ℚ) : ℚ :=
  (xs.map (fun x => (x - qmean xs) * (x - qmean xs))).sum

/-- Exact Pearson correlation coefficient of two equal-length samples.
pandas returns NaN when either variance is zero; call sites filter that
case out before this is evaluated. -/
noncomputable def corrR (xs ys : List ℚ) : ℝ :=
  (covS xs ys : ℝ) / (Real.sqrt (varS xs) * Real.sqrt (varS ys))

/-- Python `round(q, k)` on an exact rational. -/
def roundQ (k : ℕ) (q : ℚ) : ℚ :=
  (round (q * (10 : ℚ) ^ k) : ℚ) / (10 : ℚ) ^ k

/-- Python `round(x, k)` on an exact real, returned as the rational it
denotes. -/
noncomputable def roundR (k : ℕ) (x : ℝ) : ℚ :=
  ((round (x * (10 : ℝ) ^ k) : ℤ) : ℚ) / (10 : ℚ) ^ k

/-- `f"{round(float(q), 2)}"`: decimal rendering of a value rounded to
2 places, as Python prints such a float (`2.0`, `2.5`, `2.05`, `-0.5`). -/
def fmtRound2 (q : ℚ) : String :=
  let c : ℤ := round (q * 100)
  let a := c.natAbs
  let ip := a / 100
  let fr := a % 100
  let sign := if c < 0 then "-" else ""
  let frs :=
    if fr % 10 = 0 then toString (fr / 10)
    else (if fr < 10 then "0" else "") ++ toString fr
  sign ++ toString ip ++ "." ++ frs

/-! ### Sort orders

pandas sorts mixed-type object keys with numbers before strings
(`pandas.core.algorithms.safe_sort` / `_sort_mixed`), which `cellLe`
reproduces; NaN keys are always dropped before sorting. -/

def cellLeB : Cell → Cell → Bool
  | Cell.null, _ => true
  | _, Cell.null => false
  | Cell.num a, Cell.num b => a ≤ b
  | Cell.num _, Cell.str _ => true
  | Cell.str _, Cell.num _ => false
  | Cell.str a, Cell.str b => a ≤ b

def cellLe (a b : Cell) : Prop := cellLeB a b = true

instance : DecidableRel cellLe := fun a b => by unfold cellLe; infer_instance

instance : IsTotal Cell cellLe := by
  constructor
  intro a b
  cases a <;> cases b <;> simp [cellLe, cellLeB] <;> exact le_total _ _

instance : IsTrans Cell cellLe := by
  constructor
  intro a b c hab hbc
  cases a <;> cases b <;> cases c <;>
    simp_all [cellLe, cellLeB] <;> exact le_trans hab hbc

/-! ### Result data model

`{visualization, analysis_context}` dictionaries become structures.  Every
context field any playbook ever writes is a field of `Ctx`; `baseCtx` is
the all-absent context and each playbook updates exactly the keys the
Python dict literal contains. -/

/-- One row of the `overview_playbook` table (`Feature`, `Min`, `Max`,
`Mean`, `Std`, `Missing %`); `none` models the NaNs `describe()` yields on
empty (or, for std, singleton) series. -/
structure TableRow where
  feature : String
  vmin : Option ℚ
  vmax : Option ℚ
  vmean : Option ℚ
  vstd : Option ℝ
  missingPct : ℚ

inductive VizData where
  | table (columns : List String) (rows : List TableRow)
  | bar (labels : List String) (values : List ℚ)
  | pie (labels : List String) (values : List ℕ)
  | histo (labels : List String) (values : List ℕ)
  | line (x : List String) (y : List ℚ)
  | scatter (x : List ℚ) (y : List ℚ)

/-- The label list of a visualization payload (`data.labels`, or `data.x`
for line charts); tables and scatter plots carry no labels. -/
def VizData.labelList : VizData → List String
  | VizData.table _ _ => []
  | VizData.bar l _ => l
  | VizData.pie l _ => l
  | VizData.histo l _ => l
  | VizData.line x _ => x
  | VizData.scatter _ _ => []

/-- The payload is a table whose `rows` list is empty. -/
def VizData.isEmptyTable : VizData → Prop
  | VizData.table _ rows => rows = []
  | _ => False

/-- `metadata.correlation_matrix` attached by `correlation_playbook`. -/
structure CorrMatrixMeta where
  labels : List String
  matrix : List (List ℝ)

structure Viz where
  vtype : String
  data : VizData
  title : String
  metadata : Option CorrMatrixMeta

/-- Relationship context `correlation` entry: pandas can yield NaN (zero
variance) where Python `round` keeps it NaN rather than failing. -/
inductive RVal where
  | nan
  | val (q : ℚ)

/-- Per-segment summary of `segmented_distribution_playbook`. -/
structure SegSummary where
  segment : String
  count : ℕ
  mean : ℚ
  median : ℚ
  vmin : ℚ
  vmax : ℚ

structure Ctx where
  kind : String
  reason : Option String
  outcome : Option String
  feature : Option String
  feature_x : Option String
  feature_y : Option String
  segment_column : Option String
  top_correlations : List (String × ℚ)
  counts : List (String × ℕ)
  percentages : List (String × ℚ)
  segments : List String
  metric : Option String
  values : List ℚ
  row_count : Option ℕ
  column_count : Option ℕ
  numeric_features : List String
  point_count : Option ℕ
  correlation : Option RVal
  bins_labels : List String
  segment_means : List (String × ℚ)
  segment_summaries : List SegSummary
  vmin : Option ℚ
  vmax : Option ℚ
  vmean : Option ℚ
  vmedian : Option ℚ

/-- Context with no keys set; playbooks update the keys they emit. -/
def baseCtx : Ctx :=
  { kind := "", reason := none, outcome := none, feature := none,
    feature_x := none, feature_y := none, segment_column := none,
    top_correlations := [], counts := [], percentages := [], segments := [],
    metric := none, values := [], row_count := none, column_count := none,
    numeric_features := [], point_count := none, correlation := none,
    bins_labels := [], segment_means := [], segment_summaries := [],
    vmin := none, vmax := none, vmean := none, vmedian := none }

structure PlaybookResult where
  visualization : Viz
  analysis_context : Ctx

/-- Degraded table visualization shared by every insufficiency branch:
`type="table"` with empty `rows`. -/
def emptyTableViz (columns : List String) (title : String) : Viz :=
  { vtype := "table", data := VizData.table columns [], title := title,
    metadata := none }

/-! ### overview_playbook -/

/-- One table row of the overview: `describe()` statistics rounded to
2 dp and the missing percentage (1 dp).  `describe()` on an empty numeric
series yields NaN min/max/mean/std (here `none`); `std` is additionally
NaN for a single observation (sample std, ddof = 1). -/
noncomputable def overviewRow (rowCount : ℕ) (c : Column) : TableRow :=
  let series := c.qcells
  let n := series.length
  { feature := c.name
    vmin := if n = 0 then none else some (roundQ 2 (qmin series))
    vmax := if n = 0 then none else some (roundQ 2 (qmax series))
    vmean := if n = 0 then none else some (roundQ 2 (qmean series))
    vstd :=
      if 2 ≤ n then
        some ((roundR 2 (Real.sqrt ((varS series : ℝ) / (n - 1))) : ℚ))
      else none
    missingPct :=
      if rowCount = 0 then 0
      else roundQ 1 (100 * (1 - (n : ℚ) / rowCount)) }

noncomputable def overview_playbook (df : DataFrame) : PlaybookResult :=
  let row_count := df.nRows
  let col_count := df.cols.length
  let numeric_df := df.selectNumeric
  let rows :=
    if numeric_df.cols.isEmpty || numeric_df.nRows == 0 then []
    else numeric_df.cols.map (overviewRow row_count)
  { visualization :=
      { vtype := "table"
        data := VizData.table
          ["Feature", "Min", "Max", "Mean", "Std", "Missing %"] rows
        title := "Dataset Overview"
        metadata := none }
    analysis_context :=
      { baseCtx with
          kind := "overview"
          row_count := some row_count
          column_count := some col_count
          numeric_features := numeric_df.colNames } }

/-! ### correlation_playbook -/

/-- One feature's raw correlation data against the outcome: the
(unnormalised) covariance with the outcome and the feature's
(unnormalised) variance.  Its Pearson correlation is
`cov / (√varF · √varO)`. -/
structure CorrEntry where
  name : String
  cov : ℚ
  varF : ℚ
deriving DecidableEq

/-- Sort key: `|corr|²` up to the positive constant factor `varO`
(`cov²/varF`).  Comparing keys compares absolute correlations, and the
key is total-ordered on all of `ℚ`, which keeps the sort relation
transitive unconditionally. -/
def corrKey (e : CorrEntry) : ℚ := e.cov * e.cov / e.varF

/-- Descending-absolute-correlation order used by
`corrs.abs().sort_values(ascending=False)`. -/
def corrGE (a b : CorrEntry) : Prop := corrKey b ≤ corrKey a

instance : DecidableRel corrGE := fun a b => by unfold corrGE; infer_instance

instance : IsTotal CorrEntry corrGE :=
  ⟨fun a b => le_total (corrKey b) (corrKey a)⟩

instance : IsTrans CorrEntry corrGE :=
  ⟨fun _ _ _ hab hbc => le_trans hbc hab⟩

/-- Outcome values of the cleaned numeric frame. -/
def outcomeVals (nf : DataFrame) (outcome : String) : List ℚ :=
  ((nf.findCol outcome).map Column.qcells).getD []

/-- `num_df.corr()[outcome].drop(labels=[outcome]).dropna()`: one entry
per non-outcome numeric column whose correlation with the outcome is not
NaN, i.e. whose variance and the outcome's variance are nonzero. -/
def corrEntries (nf : DataFrame) (outcome : String) : List CorrEntry :=
  let ovals := outcomeVals nf outcome
  if varS ovals = 0 then []
  else
    ((nf.cols.filter (fun c => c.name ≠ outcome)).map
        (fun c => { name := c.name, cov := covS c.qcells ovals,
                    varF := varS c.qcells })).filter
      (fun e => e.varF ≠ 0)

/-- `corrs.reindex(corrs.abs().sort_values(ascending=False).index)`:
entries in descending order of absolute correlation (the order among
exact ties is not pinned down by pandas' unstable quicksort; any
descending order is a faithful model). -/
def corrSorted (nf : DataFrame) (outcome : String) : List CorrEntry :=
  (corrEntries nf outcome).insertionSort corrGE

/-- The exact Pearson correlation an entry denotes. -/
noncomputable def entryCorrR (nf : DataFrame) (outcome : String)
    (e : CorrEntry) : ℝ :=
  (e.cov : ℝ) /
    (Real.sqrt e.varF * Real.sqrt (varS (outcomeVals nf outcome)))

/-- True Pearson correlation of a named feature with the outcome, over
the numeric-restricted, null-row-dropped frame the playbook analyses. -/
noncomputable def trueCorrWithOutcome (df : DataFrame) (outcome : String)
    (n : String) : ℝ :=
  let nf := df.selectNumeric.dropnaRows
  corrR (((nf.findCol n).map Column.qcells).getD [])
    (outcomeVals nf outcome)

/-- `num_df.corr().fillna(0.0)` attached as metadata. -/
noncomputable def corrMatrixMeta (nf : DataFrame) : CorrMatrixMeta :=
  { labels := nf.colNames
    matrix := nf.cols.map (fun a => nf.cols.map (fun b =>
      if varS a.qcells = 0 ∨ varS b.qcells = 0 then 0
      else corrR a.qcells b.qcells)) }

noncomputable def correlation_playbook (df : DataFrame) (outcome : String)
    (top_n : ℕ) : PlaybookResult :=
  let num_df := df.selectNumeric.dropnaRows
  if outcome ∉ num_df.colNames ∨ num_df.nRows < 5 then
    { visualization :=
        emptyTableViz num_df.colNames "Insufficient data for correlation analysis"
      analysis_context :=
        { baseCtx with kind := "correlation", reason := some "insufficient_data" } }
  else if corrSorted num_df outcome = [] then
    { visualization :=
        emptyTableViz num_df.colNames "No meaningful correlations found"
      analysis_context :=
        { baseCtx with kind := "correlation", reason := some "no_correlations" } }
  else
    let top := (corrSorted num_df outcome).take top_n
    let labels := top.map CorrEntry.name
    let values := top.map (fun e => roundR 2 (entryCorrR num_df outcome e))
    { visualization :=
        { vtype := "bar"
          data := VizData.bar labels values
          title := "Top " ++ toString labels.length ++
            " features related to " ++ outcome
          metadata := some (corrMatrixMeta num_df) }
      analysis_context :=
        { baseCtx with
            kind := "correlation"
            outcome := some outcome
            top_correlations := labels.zip values } }

/-! ### Column auto-selection helpers -/

/-- Python `s.lower()` (structural, so concrete instances evaluate). -/
def strLower (s : String) : String := String.mk (s.data.map Char.toLower)

/-- Python truthiness-plus-membership check
`feature and feature in columns` / `not feature or feature not in columns`
(the negation of this). -/
def optValid (names : List String) : Option String → Bool
  | none => false
  | some s => (s != "") && names.contains s

/-- Feature fallback shared by `distribution_playbook`,
`feature_outcome_profile_playbook` and `segmented_distribution_playbook`:
keep a valid explicit feature, otherwise the first numeric column whose
lowercase name is in the playbook's preferred set, otherwise the first
numeric column.  Only called with a nonempty numeric column list. -/
def autoFeature (numCols : List Column) (preferred : List String)
    (feature : Option String) : String :=
  if optValid (numCols.map Column.name) feature then feature.getD ""
  else
    match numCols.find? (fun c => preferred.contains (strLower c.name)) with
    | some c => c.name
    | none => (numCols.headD default).name

/-- `{"age", "score", "amount", "value", "glucose", "bmi"}` of
`distribution_playbook`. -/
def preferredDistribution : List String :=
  ["age", "score", "amount", "value", "glucose", "bmi"]

/-- `{"age", "glucose", "bmi", "insulin"}` of
`feature_outcome_profile_playbook` and
`segmented_distribution_playbook`. -/
def preferredProfile : List String := ["age", "glucose", "bmi", "insulin"]

/-- `{"outcome", "target", "label", "y"}`. -/
def candidateOutcomeNames : List String := ["outcome", "target", "label", "y"]

/-! ### distribution_playbook -/

/-- `np.histogram` range: the observed min/max, widened by ±0.5 when they
coincide (numpy's degenerate-range rule). -/
def histRange (series : List ℚ) : ℚ × ℚ :=
  let lo := qmin series
  let hi := qmax series
  if lo = hi then (lo - 1/2, hi + 1/2) else (lo, hi)

/-- The `i`-th of the `bins+1` equal-width edges over `[lo, hi]`. -/
def histEdge (lo hi : ℚ) (bins i : ℕ) : ℚ := lo + (hi - lo) * i / bins

/-- Bucket labels `f"{left}–{right}"` with edges rounded to 2 dp. -/
def histLabels (lo hi : ℚ) (bins : ℕ) : List String :=
  (List.range bins).map (fun i =>
    fmtRound2 (histEdge lo hi bins i) ++ "–" ++
      fmtRound2 (histEdge lo hi bins (i + 1)))

/-- `np.histogram` counts: buckets are right-open except the last, which
includes the upper bound. -/
def histCounts (series : List ℚ) (lo hi : ℚ) (bins : ℕ) : List ℕ :=
  (List.range bins).map (fun i =>
    series.countP (fun x =>
      decide (histEdge lo hi bins i ≤ x) &&
        (decide (x < histEdge lo hi bins (i + 1)) ||
          (i + 1 == bins && decide (x ≤ histEdge lo hi bins (i + 1))))))

def distribution_playbook (df : DataFrame) (feature : Option String)
    (bins : ℕ) : PlaybookResult :=
  let numeric_df := df.selectNumeric
  if numeric_df.cols.isEmpty || numeric_df.nRows == 0 then
    { visualization :=
        emptyTableViz [] "No numeric columns available for distribution"
      analysis_context :=
        { baseCtx with kind := "distribution", reason := some "no_numeric_columns" } }
  else
    let feat := autoFeature numeric_df.cols preferredDistribution feature
    let series := ((numeric_df.findCol feat).map Column.qcells).getD []
    if series.isEmpty then
      { visualization := emptyTableViz [feat] ("No valid values for " ++ feat)
        analysis_context :=
          { baseCtx with
              kind := "distribution"
              feature := some feat
              reason := some "no_valid_values" } }
    else
      let lo := (histRange series).1
      let hi := (histRange series).2
      { visualization :=
          { vtype := "histogram"
            data := VizData.histo (histLabels lo hi bins) (histCounts series lo hi bins)
            title := "Distribution of " ++ feat
            metadata := none }
        analysis_context :=
          { baseCtx with
              kind := "distribution"
              feature := some feat
              row_count := some series.length
              vmin := some (roundQ 2 (qmin series))
              vmax := some (roundQ 2 (qmax series))
              vmean := some (roundQ 2 (qmean series))
              vmedian := some (roundQ 2 (qmedian series)) } }

/-! ### outcome_breakdown_playbook -/

/-- The two-step outcome inference of `outcome_breakdown_playbook` (and
`feature_outcome_profile_playbook`): keep a valid explicit name, else scan
all columns for a conventional outcome-like name, else leave the input
unchanged (possibly still invalid). -/
def resolveOutcome (df : DataFrame) (outcome : Option String) : Option String :=
  if optValid df.colNames outcome then outcome
  else
    match df.cols.find? (fun c => candidateOutcomeNames.contains (strLower c.name)) with
    | some c => some c.name
    | none => outcome

/-- Outcome column actually used after inference and the final
`not outcome or outcome not in df.columns` validity re-check. -/
def resolvedOutcomeCol (df : DataFrame) (outcome : Option String) : Option Column :=
  match resolveOutcome df outcome with
  | none => none
  | some s => if (s != "") && df.colNames.contains s then df.findCol s else none

/-- `series.value_counts().sort_index()` keys: distinct non-null values in
ascending key order. -/
def sortedOutcomeKeys (c : Column) : List Cell :=
  c.nonNullCells.dedup.insertionSort cellLe

def outcome_breakdown_playbook (df : DataFrame) (outcome : Option String) :
    PlaybookResult :=
  match resolvedOutcomeCol df outcome with
  | none =>
    { visualization :=
        emptyTableViz [] "No outcome/target column found for breakdown"
      analysis_context :=
        { baseCtx with kind := "outcome_breakdown", reason := some "no_outcome" } }
  | some c =>
    let ks := sortedOutcomeKeys c
    let labels := ks.map Cell.toDisplay
    let values := ks.map (fun v => c.nonNullCells.count v)
    let total := values.sum
    { visualization :=
        { vtype := "pie"
          data := VizData.pie labels values
          title := "Outcome breakdown for " ++ c.name
          metadata := none }
      analysis_context :=
        { baseCtx with
            kind := "outcome_breakdown"
            outcome := some c.name
            counts := labels.zip values
            percentages := ks.map (fun v =>
              (v.toDisplay,
                if total = 0 then 0
                else roundQ 1 ((c.nonNullCells.count v : ℚ) * 100 / total))) } }

/-! ### segment_comparison_playbook -/

/-- Descending-count order of `value_counts()`. -/
def countGE (a b : Cell × ℕ) : Prop := b.2 ≤ a.2

instance : DecidableRel countGE := fun a b => by unfold countGE; infer_instance

instance : IsTotal (Cell × ℕ) countGE := ⟨fun a b => le_total b.2 a.2⟩

instance : IsTrans (Cell × ℕ) countGE :=
  ⟨fun _ _ _ hab hbc => le_trans hbc hab⟩

/-- `col.value_counts()`: distinct non-null values with their counts, most
frequent first (pandas does not pin down the order of exact count ties;
any descending order is a faithful model). -/
def valueCountsDesc (c : Column) : List (Cell × ℕ) :=
  (c.nonNullCells.dedup.map (fun v => (v, c.nonNullCells.count v))).insertionSort
    countGE

/-- Segment-column fallback of `segment_comparison_playbook` and
`segmented_distribution_playbook`: keep a valid explicit column
(`is None or not in df.columns`), else the first column with between 2 and
6 distinct non-null values, else the unchanged (possibly invalid) input. -/
def resolveSegment (df : DataFrame) (segment_column : Option String) :
    Option String :=
  if (match segment_column with
      | none => true
      | some s => !df.colNames.contains s) then
    match df.cols.find? (fun c =>
        2 ≤ c.nuniqueDropna && c.nuniqueDropna ≤ 6) with
    | some c => some c.name
    | none => segment_column
  else segment_column

/-- Segment column actually used after the fallback and the final
validity re-check. -/
def resolvedSegmentCol (df : DataFrame) (segment_column : Option String) :
    Option Column :=
  match resolveSegment df segment_column with
  | none => none
  | some s => if df.colNames.contains s then df.findCol s else none

/-- `outcome and outcome in df.columns and is_numeric_dtype(df[outcome])`. -/
def outcomeNumericValid (df : DataFrame) (outcome : Option String) : Bool :=
  match outcome with
  | none => false
  | some s =>
    (s != "") &&
      (match df.findCol s with
       | some c => c.dtypeNum
       | none => false)

/-- `round(seg_df[outcome].mean(), 3)` for one segment (0.0 for an empty
segment frame, as in the source; a segment whose outcome values are all
null yields pandas NaN, modelled by the `0/0 = 0` convention of `qmean`
— no claim inspects that value). -/
def segmentMeanValue (df : DataFrame) (c : Column) (o : Column) (seg : Cell) : ℚ :=
  let idx := df.rowsEq c seg
  if idx.isEmpty then 0
  else roundQ 3 (qmean (idx.filterMap (fun i => (o.cellAt i).toQ)))

def segment_comparison_playbook (df : DataFrame)
    (segment_column outcome : Option String) : PlaybookResult :=
  match resolvedSegmentCol df segment_column with
  | none =>
    { visualization :=
        emptyTableViz [] "No suitable segment column found to compare cohorts"
      analysis_context :=
        { baseCtx with
            kind := "segment_comparison"
            reason := some "no_segment_column" } }
  | some c =>
    let counts := (valueCountsDesc c).take 2
    if counts.length < 2 then
      { visualization :=
          emptyTableViz [c.name] "Not enough segments to compare"
        analysis_context :=
          { baseCtx with
              kind := "segment_comparison"
              segment_column := some c.name
              reason := some "single_segment_only" } }
    else
      let segments := counts.map Prod.fst
      let useOutcome := outcomeNumericValid df outcome
      let metric_name :=
        if useOutcome then "Average " ++ (outcome.getD "") else "Row count"
      let segment_values :=
        if useOutcome then
          segments.map
            (segmentMeanValue df c ((df.findCol (outcome.getD "")).getD default))
        else counts.map (fun p => (p.2 : ℚ))
      let labels := segments.map Cell.toDisplay
      { visualization :=
          { vtype := "bar"
            data := VizData.bar labels segment_values
            title := metric_name ++ " by " ++ c.name
            metadata := none }
        analysis_context :=
          { baseCtx with
              kind := "segment_comparison"
              segment_column := some c.name
              segments := labels
              metric := some metric_name
              values := segment_values } }

/-! ### feature_outcome_profile_playbook -/

/-- Aligned non-null pairs of two columns of `df` (the
`notna & notna` mask over `to_numeric` of both). -/
def pairedVals (df : DataFrame) (cx cy : String) : List (ℚ × ℚ) :=
  let a := (df.findCol cx).getD default
  let b := (df.findCol cy).getD default
  (List.range df.nRows).filterMap (fun i =>
    match (a.cellAt i).toQ, (b.cellAt i).toQ with
    | some x, some y => some (x, y)
    | _, _ => none)

/-- Linear-interpolation quantile of a sorted sample (pandas default). -/
def quantileAt (sorted : List ℚ) (p : ℚ) : ℚ :=
  let n := sorted.length
  if n = 0 then 0
  else
    let h := p * ((n : ℚ) - 1)
    let i := (⌊h⌋).toNat
    let lo := sorted.getD i 0
    let hi := sorted.getD (i + 1) lo
    lo + (h - ⌊h⌋) * (hi - lo)

/-- `pd.qcut(_, q=bins, duplicates="drop")` bin edges: the `bins+1`
quantiles with duplicates collapsed (order preserved; the edges are
nondecreasing).  The sub-hundredth epsilon by which pandas widens the
lowest edge is not modelled; no claim inspects profile labels. -/
def qcutEdges (xs : List ℚ) (bins : ℕ) : List ℚ :=
  ((List.range (bins + 1)).map (fun k =>
    quantileAt (xs.insertionSort (· ≤ ·)) ((k : ℚ) / (bins : ℚ)))).dedup

/-- Membership of a value in quantile bucket `j`: buckets are left-open
except the first, which includes the minimum. -/
def inBucket (edges : List ℚ) (j : ℕ) (x : ℚ) : Bool :=
  let l := edges.getD j 0
  let r := edges.getD (j + 1) 0
  (if j = 0 then decide (l ≤ x) else decide (l < x)) && decide (x ≤ r)

def feature_outcome_profile_playbook (df : DataFrame)
    (feature outcome : Option String) (bins : ℕ) : PlaybookResult :=
  let num_df := df.selectNumeric
  if num_df.cols.isEmpty || num_df.nRows == 0 then
    { visualization :=
        emptyTableViz [] "No numeric columns available for feature profile"
      analysis_context :=
        { baseCtx with
            kind := "feature_outcome_profile"
            reason := some "no_numeric_columns" } }
  else
    let feat := autoFeature num_df.cols preferredProfile feature
    let outc := resolveOutcome df outcome
    if !outcomeNumericValid df outc then
      { visualization :=
          emptyTableViz [feat]
            ("Cannot profile " ++ feat ++ ": no numeric outcome found")
        analysis_context :=
          { baseCtx with
              kind := "feature_outcome_profile"
              feature := some feat
              reason := some "no_numeric_outcome" } }
    else
      let oname := outc.getD ""
      let pts := pairedVals df feat oname
      if pts.isEmpty then
        { visualization :=
            emptyTableViz [feat]
              ("No valid data to profile " ++ feat ++ " against " ++ oname)
          analysis_context :=
            { baseCtx with
                kind := "feature_outcome_profile"
                feature := some feat
                outcome := some oname
                reason := some "no_valid_values" } }
      else
        let edges := qcutEdges (pts.map Prod.fst) bins
        if edges.length < 2 then
          { visualization :=
              emptyTableViz [feat]
                ("Not enough variation in " ++ feat ++ " to build a profile")
            analysis_context :=
              { baseCtx with
                  kind := "feature_outcome_profile"
                  feature := some feat
                  outcome := some oname
                  reason := some "low_variation" } }
        else
          let buckets := (List.range (edges.length - 1)).filterMap (fun j =>
            let ys := (pts.filter (fun p => inBucket edges j p.1)).map Prod.snd
            if ys.isEmpty then none
            else some
              (fmtRound2 (edges.getD j 0) ++ "–" ++ fmtRound2 (edges.getD (j + 1) 0),
                roundQ 3 (qmean ys)))
          { visualization :=
              { vtype := "line"
                data := VizData.line (buckets.map Prod.fst) (buckets.map Prod.snd)
                title := "Outcome rate by " ++ feat ++ " range"
                metadata := none }
            analysis_context :=
              { baseCtx with
                  kind := "feature_outcome_profile"
                  feature := some feat
                  outcome := some oname
                  bins_labels := buckets.map Prod.fst
                  values := buckets.map Prod.snd } }

/-! ### relationship_playbook -/

/-- Fallback for `feature_x`: keep a valid explicit name, else the first
numeric column. -/
def relationshipFx (candidates : List String) (feature_x : Option String) :
    String :=
  if optValid candidates feature_x then feature_x.getD ""
  else candidates.headD ""

/-- Fallback for `feature_y`: keep a valid explicit name different from
`feature_x`, else `candidates[1]` (or `candidates[0]` for a single
candidate; unreachable behind the two-numeric-columns guard). -/
def relationshipFy (candidates : List String) (fx : String)
    (feature_y : Option String) : String :=
  if (match feature_y with
      | none => false
      | some s => (s != "") && candidates.contains s && s != fx) then
    feature_y.getD ""
  else if 1 < candidates.length then candidates.getD 1 ""
  else candidates.headD ""

noncomputable def relationship_playbook (df : DataFrame)
    (feature_x feature_y : Option String) : PlaybookResult :=
  let num_df := df.selectNumeric
  if num_df.cols.length < 2 then
    { visualization :=
        emptyTableViz num_df.colNames
          "Not enough numeric columns to show a relationship"
      analysis_context :=
        { baseCtx with
            kind := "relationship"
            reason := some "insufficient_numeric_columns" } }
  else
    let candidates := num_df.colNames
    let fx := relationshipFx candidates feature_x
    let fy := relationshipFy candidates fx feature_y
    let pts := pairedVals df fx fy
    if pts.length < 5 then
      { visualization :=
          emptyTableViz [fx, fy]
            "Not enough valid data points to show a relationship"
        analysis_context :=
          { baseCtx with
              kind := "relationship"
              feature_x := some fx
              feature_y := some fy
              reason := some "too_few_points" } }
    else
      let xs := pts.map Prod.fst
      let ys := pts.map Prod.snd
      { visualization :=
          { vtype := "scatter"
            data := VizData.scatter xs ys
            title := fy ++ " vs " ++ fx
            metadata := none }
        analysis_context :=
          { baseCtx with
              kind := "relationship"
              feature_x := some fx
              feature_y := some fy
              correlation :=
                some (if varS xs = 0 ∨ varS ys = 0 then RVal.nan
                      else RVal.val (roundR 3 (corrR xs ys)))
              point_count := some pts.length } }

/-! ### segmented_distribution_playbook -/

/-- `df.groupby(col)` keys: distinct non-null values in ascending key
order (`sort=True`). -/
def groupKeys (c : Column) : List Cell :=
  c.nonNullCells.dedup.insertionSort cellLe

/-- Numeric feature values of the rows of one group. -/
def groupFeatureVals (df : DataFrame) (c : Column) (feat : Column)
    (seg : Cell) : List ℚ :=
  (df.rowsEq c seg).filterMap (fun i => (feat.cellAt i).toQ)

def segmented_distribution_playbook (df : DataFrame)
    (feature segment_column : Option String) : PlaybookResult :=
  if df.nRows == 0 || df.cols.isEmpty then
    { visualization :=
        emptyTableViz [] "No data available for segmented distribution"
      analysis_context :=
        { baseCtx with
            kind := "segmented_distribution"
            reason := some "empty_dataframe" } }
  else
    let num_df := df.selectNumeric
    if num_df.cols.isEmpty || num_df.nRows == 0 then
      { visualization :=
          emptyTableViz [] "No numeric columns available for segmented distribution"
        analysis_context :=
          { baseCtx with
              kind := "segmented_distribution"
              reason := some "no_numeric_columns" } }
    else
      let feat := autoFeature num_df.cols preferredProfile feature
      match resolvedSegmentCol df segment_column with
      | none =>
        { visualization :=
            emptyTableViz [] "No suitable segment column found for segmented distribution"
          analysis_context :=
            { baseCtx with
                kind := "segmented_distribution"
                feature := some feat
                reason := some "no_segment_column" } }
      | some c =>
        let fcol := (df.findCol feat).getD default
        let means := (groupKeys c).filterMap (fun k =>
          let ys := groupFeatureVals df c fcol k
          if ys.isEmpty then none else some (k, qmean ys))
        if means.isEmpty then
          { visualization :=
              emptyTableViz [c.name, feat]
                ("No valid " ++ feat ++ " values for segmented distribution")
            analysis_context :=
              { baseCtx with
                  kind := "segmented_distribution"
                  feature := some feat
                  segment_column := some c.name
                  reason := some "no_valid_values" } }
        else
          let labels := means.map (fun p => p.1.toDisplay)
          let values := means.map (fun p => roundQ 2 p.2)
          let summaries := (groupKeys c).filterMap (fun k =>
            let s := groupFeatureVals df c fcol k
            if s.isEmpty then none
            else some
              { segment := k.toDisplay
                count := s.length
                mean := roundQ 2 (qmean s)
                median := roundQ 2 (qmedian s)
                vmin := roundQ 2 (qmin s)
                vmax := roundQ 2 (qmax s) })
          { visualization :=
              { vtype := "bar"
                data := VizData.bar labels values
                title := "Average " ++ feat ++ " by " ++ c.name
                metadata := none }
            analysis_context :=
              { baseCtx with
                  kind := "segmented_distribution"
                  feature := some feat
                  segment_column := some c.name
                  segments := labels
                  segment_means := labels.zip values
                  segment_summaries := summaries } }

/-! ### Playbook dispatch (`execute_query`, steps 5–6)

The validated analysis request produced by
`QueryService.select_analysis` (playbook name, optional column
references, clamped `top_n`/`bins`, filters, and a secondary-playbook
list already deduplicated against the primary and restricted to the
allowed names). -/

structure AnalysisReq where
  playbook : String
  target : Option String
  feature : Option String
  segment_column : Option String
  feature_x : Option String
  feature_y : Option String
  top_n : Option ℕ
  bins : Option ℕ
  filter_segment : Option (String × Cell)
  focus_range : Option (String × ℚ × ℚ)
  secondary_playbooks : List String

/-- Python `x or d` on an optional count (0 is falsy). -/
def orD (d : ℕ) : Option ℕ → ℕ
  | none => d
  | some n => if n = 0 then d else n

/-- Python `target or "Outcome"`. -/
def orOutcome : Option String → String
  | none => "Outcome"
  | some s => if s = "" then "Outcome" else s

/-- Equality pre-filter from `filter_segment` (swallowed when the column
is absent). -/
def applySegmentFilter (df : DataFrame) (fs : Option (String × Cell)) :
    DataFrame :=
  match fs with
  | none => df
  | some (col, value) =>
    if df.colNames.contains col then
      df.keepRows (df.rowsEq ((df.findCol col).getD default) value)
    else df

/-- Numeric range pre-filter from `focus_range` (`series.between`,
inclusive; rows whose value does not coerce are dropped by the mask).
The request model types min/max as numbers, matching the `isinstance`
guard in the source. -/
def applyFocusRange (df : DataFrame) (fr : Option (String × ℚ × ℚ)) :
    DataFrame :=
  match fr with
  | none => df
  | some (feat, lo, hi) =>
    if df.colNames.contains feat then
      let c := (df.findCol feat).getD default
      df.keepRows ((List.range df.nRows).filter (fun i =>
        match (c.cellAt i).toQ with
        | some x => decide (lo ≤ x) && decide (x ≤ hi)
        | none => false))
    else df

def applyFilters (df : DataFrame) (p : AnalysisReq) : DataFrame :=
  applyFocusRange (applySegmentFilter df p.filter_segment) p.focus_range

/-- The `elif` chain selecting the primary playbook; an unknown or unset
name defaults to `overview`. -/
noncomputable def runPrimary (df : DataFrame) (p : AnalysisReq) :
    PlaybookResult :=
  if p.playbook = "correlation" then
    correlation_playbook df (orOutcome p.target) (orD 5 p.top_n)
  else if p.playbook = "distribution" then
    distribution_playbook df p.feature (orD 10 p.bins)
  else if p.playbook = "segmented_distribution" then
    segmented_distribution_playbook df p.feature p.segment_column
  else if p.playbook = "segment_comparison" then
    segment_comparison_playbook df p.segment_column p.target
  else if p.playbook = "outcome_breakdown" then
    outcome_breakdown_playbook df (some (orOutcome p.target))
  else if p.playbook = "feature_outcome_profile" then
    feature_outcome_profile_playbook df p.feature (some (orOutcome p.target))
      (orD 8 p.bins)
  else if p.playbook = "relationship" then
    relationship_playbook df p.feature_x p.feature_y
  else overview_playbook df

/-- The `elif` chain inside the secondary-playbook loop (`overview` is
not among the secondary names; unknown names hit `continue`, giving
`none`). -/
noncomputable def runSecondary (df : DataFrame) (p : AnalysisReq)
    (name : String) : Option PlaybookResult :=
  if name = "correlation" then
    some (correlation_playbook df (orOutcome p.target) (orD 5 p.top_n))
  else if name = "distribution" then
    some (distribution_playbook df p.feature (orD 10 p.bins))
  else if name = "segment_comparison" then
    some (segment_comparison_playbook df p.segment_column p.target)
  else if name = "outcome_breakdown" then
    some (outcome_breakdown_playbook df (some (orOutcome p.target)))
  else if name = "feature_outcome_profile" then
    some (feature_outcome_profile_playbook df p.feature
      (some (orOutcome p.target)) (orD 8 p.bins))
  else if name = "relationship" then
    some (relationship_playbook df p.feature_x p.feature_y)
  else if name = "segmented_distribution" then
    some (segmented_distribution_playbook df p.feature p.segment_column)
  else none

structure QueryOut where
  visualization : Viz
  extra_visualizations : List Viz
  analysis_context : Ctx

/-- Steps 5–6 of `execute_query`: apply the pre-filters, run the primary
playbook on the filtered rows, then loop over `secondary_playbooks`
appending each secondary visualization (in the model the playbooks are
total functions, so the `except`-and-skip arm of the loop is vacuous; the
`continue` for unknown names is the `none` case). -/
noncomputable def executeQueryCore (df0 : DataFrame) (p : AnalysisReq) :
    QueryOut :=
  let df := applyFilters df0 p
  let play := runPrimary df p
  let extra := p.secondary_playbooks.foldl (fun acc name =>
    match runSecondary df p name with
    | some sp => acc ++ [sp.visualization]
    | none => acc) []
  { visualization := play.visualization
    extra_visualizations := extra
    analysis_context := play.analysis_context }

/-! ### Insufficiency-policy shape lemmas -/

/-- Shape contract: the context names the playbook, and whenever a reason
code is present the visualization is a table with empty rows. -/
def degradedOk (r : PlaybookResult) (k : String) : Prop :=
  r.analysis_context.kind = k ∧
    ∀ s, r.analysis_context.reason = some s →
      r.visualization.vtype = "table" ∧ r.visualization.data.isEmptyTable

lemma overview_shape (df : DataFrame) :
    degradedOk (overview_playbook df) "overview" :=
  ⟨rfl, fun _ h => Option.noConfusion h⟩

lemma correlation_shape (df : DataFrame) (o : String) (n : ℕ) :
    degradedOk (correlation_playbook df o n) "correlation" := by
  simp only [correlation_playbook]
  split
  · exact ⟨rfl, fun s h => ⟨rfl, rfl⟩⟩
  · split
    · exact ⟨rfl, fun s h => ⟨rfl, rfl⟩⟩
    · exact ⟨rfl, fun s h => Option.noConfusion h⟩

lemma distribution_shape (df : DataFrame) (f : Option String) (b : ℕ) :
    degradedOk (distribution_playbook df f b) "distribution" := by
  simp only [distribution_playbook]
  split
  · exact ⟨rfl, fun s h => ⟨rfl, rfl⟩⟩
  · split
    · exact ⟨rfl, fun s h => ⟨rfl, rfl⟩⟩
    · exact ⟨rfl, fun s h => Option.noConfusion h⟩

lemma outcome_breakdown_shape (df : DataFrame) (o : Option String) :
    degradedOk (outcome_breakdown_playbook df o) "outcome_breakdown" := by
  simp only [outcome_breakdown_playbook]
  split
  · exact ⟨rfl, fun s h => ⟨rfl, rfl⟩⟩
  · exact ⟨rfl, fun s h => Option.noConfusion h⟩

lemma segment_comparison_shape (df : DataFrame) (sc o : Option String) :
    degradedOk (segment_comparison_playbook df sc o) "segment_comparison" := by
  simp only [segment_comparison_playbook]
  split
  · exact ⟨rfl, fun s h => ⟨rfl, rfl⟩⟩
  · split
    · exact ⟨rfl, fun s h => ⟨rfl, rfl⟩⟩
    · exact ⟨rfl, fun s h => Option.noConfusion h⟩

lemma feature_outcome_profile_shape (df : DataFrame) (f o : Option String)
    (b : ℕ) :
    degradedOk (feature_outcome_profile_playbook df f o b)
      "feature_outcome_profile" := by
  simp only [feature_outcome_profile_playbook]
  split
  · exact ⟨rfl, fun s h => ⟨rfl, rfl⟩⟩
  · split
    · exact ⟨rfl, fun s h => ⟨rfl, rfl⟩⟩
    · split
      · exact ⟨rfl, fun s h => ⟨rfl, rfl⟩⟩
      · split
        · exact ⟨rfl, fun s h => ⟨rfl, rfl⟩⟩
        · exact ⟨rfl, fun s h => Option.noConfusion h⟩

lemma relationship_shape (df : DataFrame) (fx fy : Option String) :
    degradedOk (relationship_playbook df fx fy) "relationship" := by
  simp only [relationship_playbook]
  split
  · exact ⟨rfl, fun s h => ⟨rfl, rfl⟩⟩
  · split
    · exact ⟨rfl, fun s h => ⟨rfl, rfl⟩⟩
    · exact ⟨rfl, fun s h => Option.noConfusion h⟩

lemma segmented_distribution_shape (df : DataFrame) (f sc : Option String) :
    degradedOk (segmented_distribution_playbook df f sc)
      "segmented_distribution" := by
  simp only [segmented_distribution_playbook]
  split
  · exact ⟨rfl, fun s h => ⟨rfl, rfl⟩⟩
  · split
    · exact ⟨rfl, fun s h => ⟨rfl, rfl⟩⟩
    · split
      · exact ⟨rfl, fun s h => ⟨rfl, rfl⟩⟩
      · split
        · exact ⟨rfl, fun s h => ⟨rfl, rfl⟩⟩
        · exact ⟨rfl, fun s h => Option.noConfusion h⟩

/-- C1: For every input row set (including zero rows, zero numeric
columns, or a requested column absent) and every playbook in the library,
the (total) playbook function satisfies the insufficiency policy:
whenever it cannot produce a meaningful result it returns a
visualization of type "table" with empty rows, and an analysis context
carrying the playbook's kind and the reason code.  The bin-count
parameters are restricted to positive values, matching the dispatcher's
5–50 clamp and defaults (numpy/pandas reject a non-positive bin count
outright). -/
theorem playbooks_insufficiency_policy (df : DataFrame) (outc : String)
    (o f sc fx fy : Option String) (tn b1 b2 : ℕ) (_hb1 : 0 < b1)
    (_hb2 : 0 < b2) :
    degradedOk (overview_playbook df) "overview" ∧
    degradedOk (correlation_playbook df outc tn) "correlation" ∧
    degradedOk (distribution_playbook df f b1) "distribution" ∧
    degradedOk (outcome_breakdown_playbook df o) "outcome_breakdown" ∧
    degradedOk (segment_comparison_playbook df sc o) "segment_comparison" ∧
    degradedOk (feature_outcome_profile_playbook df f o b2)
      "feature_outcome_profile" ∧
    degradedOk (relationship_playbook df fx fy) "relationship" ∧
    degradedOk (segmented_distribution_playbook df f sc)
      "segmented_distribution" :=
  ⟨overview_shape df, correlation_shape df outc tn,
    distribution_shape df f b1, outcome_breakdown_shape df o,
    segment_comparison_shape df sc o,
    feature_outcome_profile_shape df f o b2, relationship_shape df fx fy,
    segmented_distribution_shape df f sc⟩

/-- Witness for C1 at a concrete frame and concrete parameters. -/
theorem playbooks_insufficiency_policy_witness :
    0 < 10 ∧ 0 < 8 ∧
      degradedOk (overview_playbook ⟨0, []⟩) "overview" :=
  ⟨by decide, by decide,
    (playbooks_insufficiency_policy ⟨0, []⟩ "Outcome" none none none none
      none 5 10 8 (by decide) (by decide)).1⟩

/-! ### C3: correlation insufficiency condition -/

/-- Scenario C frame: 3 rows, numeric `value`, text `label`. -/
def frameC3 : DataFrame :=
  ⟨3, [⟨"value", true, [Cell.num 1, Cell.num 2, Cell.num 3]⟩,
       ⟨"label", false, [Cell.str "a", Cell.str "b", Cell.str "c"]⟩]⟩

/-- C3: `correlation_playbook` reports reason "insufficient_data" (with a
table visualization and kind "correlation") exactly when, after
restricting to numeric columns and dropping rows with a null among them,
the outcome is not among the remaining columns or fewer than 5 rows
remain; in particular the 3-row frame `{value:[1,2,3], label:[a,b,c]}`
with outcome "value" yields that reason. -/
theorem correlation_insufficient_data_iff :
    (∀ (df : DataFrame) (outc : String) (tn : ℕ),
      ((correlation_playbook df outc tn).analysis_context.reason =
          some "insufficient_data" ↔
        (outc ∉ (df.selectNumeric.dropnaRows).colNames ∨
          (df.selectNumeric.dropnaRows).nRows < 5)) ∧
      ((outc ∉ (df.selectNumeric.dropnaRows).colNames ∨
          (df.selectNumeric.dropnaRows).nRows < 5) →
        (correlation_playbook df outc tn).visualization.vtype = "table" ∧
        (correlation_playbook df outc tn).analysis_context.kind =
          "correlation")) ∧
    (correlation_playbook frameC3 "value" 5).analysis_context.reason =
      some "insufficient_data" := by
  constructor
  · intro df outc tn
    constructor
    · simp only [correlation_playbook]
      split_ifs with h1 h2 <;> simp [h1, baseCtx]
    · intro hc
      simp only [correlation_playbook]
      split_ifs
      exact ⟨rfl, rfl⟩
  · decide

/-! ### C6: relationship too_few_points -/

/-- C6: whenever `relationship_playbook` proceeds past its
two-numeric-columns check, it reports reason "too_few_points" with a
table visualization exactly when fewer than 5 paired non-null
observations of the selected pair exist, and in that case the analysis
context carries no correlation value. -/
theorem relationship_too_few_points (df : DataFrame) (fx fy : Option String)
    (h2 : 2 ≤ df.selectNumeric.cols.length) :
    ((relationship_playbook df fx fy).analysis_context.reason =
        some "too_few_points" ↔
      (pairedVals df (relationshipFx df.selectNumeric.colNames fx)
        (relationshipFy df.selectNumeric.colNames
          (relationshipFx df.selectNumeric.colNames fx) fy)).length < 5) ∧
    ((pairedVals df (relationshipFx df.selectNumeric.colNames fx)
        (relationshipFy df.selectNumeric.colNames
          (relationshipFx df.selectNumeric.colNames fx) fy)).length < 5 →
      (relationship_playbook df fx fy).analysis_context.correlation = none ∧
      (relationship_playbook df fx fy).visualization.vtype = "table") := by
  simp only [relationship_playbook]
  split_ifs with h1 h5 hv
  · exact absurd h1 (by omega)
  · exact ⟨by simp [h5, baseCtx], fun _ => ⟨rfl, rfl⟩⟩
  · exact ⟨by simp [h5, baseCtx], fun h => absurd h h5⟩
  · exact ⟨by simp [h5, baseCtx], fun h => absurd h h5⟩

/-- Two numeric columns, three rows: fewer than 5 paired observations. -/
def frameR6 : DataFrame :=
  ⟨3, [⟨"a", true, [Cell.num 1, Cell.num 2, Cell.num 3]⟩,
       ⟨"b", true, [Cell.num 4, Cell.num 5, Cell.num 6]⟩]⟩

/-- Witness for C6 at a concrete two-column, three-row frame. -/
theorem relationship_too_few_points_witness :
    2 ≤ frameR6.selectNumeric.cols.length ∧
    ((relationship_playbook frameR6 none none).analysis_context.reason =
        some "too_few_points" ↔
      (pairedVals frameR6 (relationshipFx frameR6.selectNumeric.colNames none)
        (relationshipFy frameR6.selectNumeric.colNames
          (relationshipFx frameR6.selectNumeric.colNames none) none)).length < 5) :=
  ⟨by decide, (relationship_too_few_points frameR6 none none (by decide)).1⟩

/-! ### C8: relationship auto-selection distinctness -/

/-- Failing input for the distinct-pair rule: two numeric columns `a`,
`b`; `feature_x="b"` is explicitly the second numeric column and
`feature_y` is absent. -/
def frameC8 : DataFrame :=
  ⟨5, [⟨"a", true, [Cell.num 1, Cell.num 2, Cell.num 3, Cell.num 4,
        Cell.num 5]⟩,
       ⟨"b", true, [Cell.num 4, Cell.num 5, Cell.num 6, Cell.num 7,
        Cell.num 8]⟩]⟩

/-- C8: the code evaluated at the failing input.  With `feature_x="b"`
(the second numeric column) and `feature_y` absent, the
`feature_y == feature_x` guard fires but assigns `candidates[1] = "b"`
again, so the playbook proceeds with `feature_y = feature_x = "b"`,
contradicting the intended distinctness of the auto-selected pair. -/
theorem relationship_auto_select_not_distinct :
    (relationship_playbook frameC8 (some "b") none).analysis_context.feature_x =
        some "b" ∧
    (relationship_playbook frameC8 (some "b") none).analysis_context.feature_y =
        some "b" ∧
    relationshipFy frameC8.selectNumeric.colNames "b" none = "b" := by
  refine ⟨?_, ?_, by decide⟩ <;>
    · simp only [relationship_playbook]
      split_ifs with h1 h5 <;>
        first
          | rfl
          | exact absurd h1 (by decide)

/-! ### C4: distribution histogram label count -/

/-- Non-null values of the feature `distribution_playbook` selects. -/
def distributionSeries (df : DataFrame) (feature : Option String) : List ℚ :=
  ((df.selectNumeric.findCol
      (autoFeature df.selectNumeric.cols preferredDistribution feature)).map
    Column.qcells).getD []

/-- C4 as stated: for a row set with at least one numeric column,
`distribution_playbook` returns exactly `bins` labels when the selected
feature has a non-null value, and 0 labels with reason "no_valid_values"
when it has none. -/
def distributionLabelClaim (df : DataFrame) (feature : Option String)
    (bins : ℕ) : Prop :=
  df.selectNumeric.cols ≠ [] →
    (distributionSeries df feature ≠ [] →
      (distribution_playbook df feature bins).visualization.data.labelList.length =
        bins) ∧
    (distributionSeries df feature = [] →
      (distribution_playbook df feature bins).visualization.data.labelList = [] ∧
      (distribution_playbook df feature bins).analysis_context.reason =
        some "no_valid_values")

/-- A numeric column with zero rows (a shape the dispatcher's pre-filters
produce). -/
def frameC4z : DataFrame := ⟨0, [⟨"x", true, []⟩]⟩

/-- C4 counterexample: on a zero-row frame with a numeric column the
selected feature has no valid values, yet the reason is
"no_numeric_columns" (pandas `DataFrame.empty` is true when any axis has
length 0), not "no_valid_values". -/
theorem distribution_zero_rows_counterexample :
    ¬ distributionLabelClaim frameC4z none 10 := by
  intro h
  have h2 := (h (by decide)).2 (by decide)
  exact absurd h2.2 (by decide)

/-- C4 amended: additionally assuming at least one row (and a positive
bin count, which the dispatcher's 5–50 clamp guarantees), the histogram
has exactly `bins` equal-width bucket labels of the form
`"{left}–{right}"` with edges rounded to 2 dp when the selected feature
has a non-null value, and 0 labels with reason "no_valid_values"
otherwise; a zero-row frame instead reports "no_numeric_columns". -/
theorem distribution_label_count (df : DataFrame) (feature : Option String)
    (bins : ℕ) (_hb : 0 < bins) (hcols : df.selectNumeric.cols ≠ [])
    (hrows : 0 < df.nRows) :
    (distributionSeries df feature ≠ [] →
      (distribution_playbook df feature bins).visualization.vtype =
          "histogram" ∧
      (distribution_playbook df feature bins).visualization.data.labelList.length =
          bins ∧
      (distribution_playbook df feature bins).visualization.data.labelList =
        histLabels (histRange (distributionSeries df feature)).1
          (histRange (distributionSeries df feature)).2 bins) ∧
    (distributionSeries df feature = [] →
      (distribution_playbook df feature bins).visualization.data.labelList = [] ∧
      (distribution_playbook df feature bins).analysis_context.reason =
        some "no_valid_values" ∧
      (distribution_playbook df feature bins).visualization.vtype = "table") := by
  simp only [distribution_playbook, distributionSeries]
  split_ifs with h0 hser
  · rw [Bool.or_eq_true, List.isEmpty_iff, beq_iff_eq] at h0
    rcases h0 with h | h
    · exact absurd h hcols
    · exact absurd (show df.nRows = 0 from h) (by omega)
  · constructor
    · intro hne
      exact absurd (List.isEmpty_iff.mp hser) hne
    · exact fun _ => ⟨rfl, rfl, rfl⟩
  · constructor
    · exact fun _ => ⟨rfl, by simp [VizData.labelList, histLabels], rfl⟩
    · intro hempty
      exact absurd (List.isEmpty_iff.mpr hempty) hser

/-- A six-row single numeric column for the C4 witness. -/
def frameC4w : DataFrame :=
  ⟨6, [⟨"x", true, [Cell.num 1, Cell.num 2, Cell.num 3, Cell.num 4,
        Cell.num 5, Cell.num 6]⟩]⟩

/-- Witness for C4 (amended) at a concrete frame with 5 bins. -/
theorem distribution_label_count_witness :
    (0 < 5 ∧ frameC4w.selectNumeric.cols ≠ [] ∧ 0 < frameC4w.nRows ∧
      distributionSeries frameC4w none ≠ []) ∧
    (distribution_playbook frameC4w none 5).visualization.data.labelList.length =
      5 :=
  ⟨⟨by decide, by decide, by decide, by decide⟩,
    ((distribution_label_count frameC4w none 5 (by decide) (by decide)
      (by decide)).1 (by decide)).2.1⟩

/-! ### C5: segment comparison takes the two most frequent values -/

lemma valueCountsDesc_mem {c : Column} {e : Cell × ℕ}
    (h : e ∈ valueCountsDesc c) :
    e.1 ∈ c.nonNullCells ∧ e.2 = c.nonNullCells.count e.1 := by
  unfold valueCountsDesc at h
  rw [List.mem_insertionSort] at h
  obtain ⟨v, hv, rfl⟩ := List.mem_map.mp h
  exact ⟨List.mem_dedup.mp hv, rfl⟩

lemma valueCountsDesc_fst_perm (c : Column) :
    List.Perm ((valueCountsDesc c).map Prod.fst) c.nonNullCells.dedup := by
  unfold valueCountsDesc
  refine ((List.perm_insertionSort countGE _).map Prod.fst).trans ?_
  rw [List.map_map]
  have h : (Prod.fst ∘ fun v => (v, c.nonNullCells.count v)) = id := rfl
  rw [h, List.map_id]

lemma valueCountsDesc_length (c : Column) :
    (valueCountsDesc c).length = c.nuniqueDropna := by
  unfold valueCountsDesc Column.nuniqueDropna
  rw [(List.perm_insertionSort countGE _).length_eq, List.length_map]

lemma valueCountsDesc_sorted (c : Column) :
    List.Sorted countGE (valueCountsDesc c) :=
  List.sorted_insertionSort countGE _

lemma valueCountsDesc_mem_of_mem {c : Column} {v : Cell}
    (h : v ∈ c.nonNullCells) :
    (v, c.nonNullCells.count v) ∈ valueCountsDesc c := by
  unfold valueCountsDesc
  rw [List.mem_insertionSort, List.mem_map]
  exact ⟨v, List.mem_dedup.mpr h, rfl⟩

lemma valueCountsDesc_fst_nodup (c : Column) :
    ((valueCountsDesc c).map Prod.fst).Nodup :=
  (valueCountsDesc_fst_perm c).symm.nodup_iff.mp (List.nodup_dedup _)

/-- C5: whenever `segment_comparison_playbook` resolves a segment column
(explicitly or by fallback), it reports "single_segment_only" when the
column has fewer than 2 distinct non-null values, and otherwise compares
exactly 2 segments: the two selected values are distinct occurring
values, listed in descending frequency, and no unselected value occurs
more often than either of them. -/
theorem segment_comparison_two_most_frequent (df : DataFrame)
    (sc o : Option String) (c : Column)
    (hc : resolvedSegmentCol df sc = some c) :
    (c.nuniqueDropna < 2 →
      (segment_comparison_playbook df sc o).analysis_context.reason =
          some "single_segment_only" ∧
      (segment_comparison_playbook df sc o).visualization.vtype = "table") ∧
    (2 ≤ c.nuniqueDropna →
      (segment_comparison_playbook df sc o).analysis_context.reason = none ∧
      (segment_comparison_playbook df sc o).analysis_context.segments.length =
          2 ∧
      ∃ s1 s2 : Cell,
        ((valueCountsDesc c).take 2).map Prod.fst = [s1, s2] ∧
        (segment_comparison_playbook df sc o).analysis_context.segments =
          [s1.toDisplay, s2.toDisplay] ∧
        s1 ≠ s2 ∧ s1 ∈ c.nonNullCells ∧ s2 ∈ c.nonNullCells ∧
        c.nonNullCells.count s2 ≤ c.nonNullCells.count s1 ∧
        ∀ v ∈ c.nonNullCells, v ≠ s1 → v ≠ s2 →
          c.nonNullCells.count v ≤ c.nonNullCells.count s2) := by
  have hlen := valueCountsDesc_length c
  simp only [segment_comparison_playbook, hc]
  constructor
  · intro hnu
    have hcond : ((valueCountsDesc c).take 2).length < 2 := by
      rw [List.length_take]; omega
    rw [if_pos hcond]
    exact ⟨rfl, rfl⟩
  · intro h2u
    have hcond : ¬ ((valueCountsDesc c).take 2).length < 2 := by
      rw [List.length_take]; omega
    rw [if_neg hcond]
    refine ⟨rfl, ?_, ?_⟩
    · show ((((valueCountsDesc c).take 2).map Prod.fst).map Cell.toDisplay).length = 2
      rw [List.length_map, List.length_map, List.length_take]; omega
    · have h2l : 2 ≤ (valueCountsDesc c).length := by omega
      rcases hvl : valueCountsDesc c with _ | ⟨e1, tail⟩
      · rw [hvl] at h2l; simp at h2l
      rcases tail with _ | ⟨e2, rest⟩
      · rw [hvl] at h2l; simp at h2l
      have hm1 : e1 ∈ valueCountsDesc c := by
        rw [hvl]; exact List.mem_cons_self _ _
      have hm2 : e2 ∈ valueCountsDesc c := by
        rw [hvl]; exact List.mem_cons_of_mem _ (List.mem_cons_self _ _)
      have hc1 := valueCountsDesc_mem hm1
      have hc2 := valueCountsDesc_mem hm2
      have hs := valueCountsDesc_sorted c
      rw [hvl] at hs
      have hnd := valueCountsDesc_fst_nodup c
      rw [hvl, List.map_cons, List.map_cons] at hnd
      refine ⟨e1.1, e2.1, rfl, rfl, ?_, hc1.1,
        hc2.1, ?_, ?_⟩
      · intro he
        exact (List.nodup_cons.mp hnd).1 (he ▸ List.mem_cons_self _ _)
      · have h12 : countGE e1 e2 :=
          List.rel_of_sorted_cons hs e2 (List.mem_cons_self _ _)
        rw [← hc1.2, ← hc2.2]
        exact h12
      · intro v hv hne1 hne2
        have hmm := valueCountsDesc_mem_of_mem hv
        rw [hvl] at hmm
        rcases List.mem_cons.mp hmm with he | hmm2
        · exact absurd (congrArg Prod.fst he) hne1
        rcases List.mem_cons.mp hmm2 with he | hrest
        · exact absurd (congrArg Prod.fst he) hne2
        · have h2v : countGE e2 (v, c.nonNullCells.count v) :=
            List.rel_of_sorted_cons (List.sorted_cons.mp hs).2 _ hrest
          rw [← hc2.2]
          exact h2v

/-- Segment column with three distinct values of counts 2, 2, 1. -/
def frameC5g : Column :=
  ⟨"g", false, [Cell.str "a", Cell.str "a", Cell.str "b", Cell.str "b",
    Cell.str "c"]⟩

/-- Five-row frame for the C5 witness. -/
def frameC5 : DataFrame :=
  ⟨5, [frameC5g,
       ⟨"v", true, [Cell.num 1, Cell.num 2, Cell.num 3, Cell.num 4,
        Cell.num 5]⟩]⟩

/-- Witness for C5 at a concrete frame whose fallback segment column has
three distinct values. -/
theorem segment_comparison_two_most_frequent_witness :
    (resolvedSegmentCol frameC5 none = some frameC5g ∧
      2 ≤ frameC5g.nuniqueDropna) ∧
    (segment_comparison_playbook frameC5 none none).analysis_context.segments.length =
      2 :=
  ⟨⟨by decide, by decide⟩,
    ((segment_comparison_two_most_frequent frameC5 none none frameC5g
      (by decide)).2 (by decide)).2.1⟩

/-! ### C10: outcome breakdown excludes null outcomes -/

lemma sortedOutcomeKeys_perm (c : Column) :
    List.Perm (sortedOutcomeKeys c) c.nonNullCells.dedup :=
  List.perm_insertionSort cellLe _

lemma sortedOutcomeKeys_count_sum (c : Column) :
    ((sortedOutcomeKeys c).map (fun v => c.nonNullCells.count v)).sum =
      c.nonNullCells.length := by
  rw [((sortedOutcomeKeys_perm c).map (fun v => c.nonNullCells.count v)).sum_eq]
  exact List.sum_map_count_dedup_eq_length _

/-- C10: when `outcome_breakdown_playbook` resolves an outcome column,
null outcomes are excluded: the pie's values sum to the number of rows
with a non-null outcome, its labels are exactly the distinct non-null
outcome values in ascending key order, and every percentage is computed
against that non-null total. -/
theorem outcome_breakdown_nonnull (df : DataFrame) (o : Option String)
    (c : Column) (hc : resolvedOutcomeCol df o = some c) :
    (outcome_breakdown_playbook df o).visualization.vtype = "pie" ∧
    (outcome_breakdown_playbook df o).visualization.data =
      VizData.pie ((sortedOutcomeKeys c).map Cell.toDisplay)
        ((sortedOutcomeKeys c).map (fun v => c.nonNullCells.count v)) ∧
    ((sortedOutcomeKeys c).map (fun v => c.nonNullCells.count v)).sum =
      c.nonNullCells.length ∧
    List.Sorted cellLe (sortedOutcomeKeys c) ∧
    (sortedOutcomeKeys c).Nodup ∧
    (∀ v : Cell, v ∈ sortedOutcomeKeys c ↔ v ∈ c.cells ∧ v.isNull = false) ∧
    (outcome_breakdown_playbook df o).analysis_context.percentages =
      (sortedOutcomeKeys c).map (fun v =>
        (v.toDisplay,
          if c.nonNullCells.length = 0 then 0
          else roundQ 1 ((c.nonNullCells.count v : ℚ) * 100 /
            c.nonNullCells.length))) := by
  have hsum := sortedOutcomeKeys_count_sum c
  simp only [outcome_breakdown_playbook, hc]
  refine ⟨by trivial, by trivial, hsum, List.sorted_insertionSort cellLe _,
    (sortedOutcomeKeys_perm c).nodup_iff.mpr (c.nonNullCells.nodup_dedup),
    ?_, ?_⟩
  · intro v
    simp [sortedOutcomeKeys, Column.nonNullCells, List.mem_filter]
  · simp only [hsum]

/-- Outcome column with one null among five rows. -/
def frameC10col : Column :=
  ⟨"Outcome", true, [Cell.num 1, Cell.num 0, Cell.null, Cell.num 1,
    Cell.num 1]⟩

def frameC10 : DataFrame := ⟨5, [frameC10col]⟩

/-- Witness for C10 at a concrete frame containing a null outcome. -/
theorem outcome_breakdown_nonnull_witness :
    resolvedOutcomeCol frameC10 (some "Outcome") = some frameC10col ∧
    ((sortedOutcomeKeys frameC10col).map
        (fun v => frameC10col.nonNullCells.count v)).sum =
      frameC10col.nonNullCells.length :=
  ⟨by decide,
    (outcome_breakdown_nonnull frameC10 (some "Outcome") frameC10col
      (by decide)).2.2.1⟩

/-! ### C9: per-playbook auto-selection allow-lists -/

/-- Modelled from the spec: the single allow-list
`{age, glucose, bmi, insulin, score, amount, value}` that §4.2 says every
playbook's generic-feature auto-selection prefers. -/
def specUniformAllowList : List String :=
  ["age", "glucose", "bmi", "insulin", "score", "amount", "value"]

/-- Modelled from the spec: uniform auto-selection — case-insensitive
exact match against `specUniformAllowList` scanning numeric columns in
order, else the first numeric column.  Written from the spec's words to
compare against the per-playbook rules the source implements. -/
def specUniformSelect (numCols : List Column) (feature : Option String) :
    String :=
  if optValid (numCols.map Column.name) feature then feature.getD ""
  else
    match numCols.find? (fun c =>
        specUniformAllowList.contains (strLower c.name)) with
    | some c => c.name
    | none => (numCols.headD default).name

/-- C9 as stated: every playbook's numeric-feature auto-selection equals
the uniform spec rule. -/
def uniformSelectionClaim : Prop :=
  ∀ (numCols : List Column) (feature : Option String),
    autoFeature numCols preferredDistribution feature =
      specUniformSelect numCols feature ∧
    autoFeature numCols preferredProfile feature =
      specUniformSelect numCols feature

/-- Numeric columns `Other`, `Insulin` in that order. -/
def frameC9cols : List Column :=
  [⟨"Other", true, [Cell.num 1]⟩, ⟨"Insulin", true, [Cell.num 2]⟩]

/-- Numeric columns `OtherCol`, `Score` in that order. -/
def frameC9scoreCols : List Column :=
  [⟨"OtherCol", true, [Cell.num 1]⟩, ⟨"Score", true, [Cell.num 2]⟩]

/-- C9 counterexample: `distribution_playbook` scans
`{age, score, amount, value, glucose, bmi}` — without `insulin` — so on
numeric columns `[Other, Insulin]` it selects `Other` while the claimed
uniform allow-list (which contains `insulin`) selects `Insulin`. -/
theorem auto_selection_allow_lists_counterexample :
    ¬ uniformSelectionClaim := by
  intro h
  exact absurd ((h frameC9cols none).1) (by decide)

/-- C9 amended: each auto-selecting playbook follows the
case-insensitive first-match-else-first-numeric-column rule, but with its
own allow-list: `{age, score, amount, value, glucose, bmi}` for
`distribution_playbook` and `{age, glucose, bmi, insulin}` for
`feature_outcome_profile_playbook` and
`segmented_distribution_playbook`; the selected feature is the one each
playbook reports in `analysis_context.feature`, and the two lists
demonstrably diverge from the uniform list and from each other. -/
theorem auto_selection_per_playbook :
    (autoFeature frameC9cols preferredDistribution none = "Other" ∧
      specUniformSelect frameC9cols none = "Insulin" ∧
      autoFeature frameC9scoreCols preferredProfile none = "OtherCol" ∧
      autoFeature frameC9scoreCols preferredDistribution none = "Score") ∧
    (∀ (df : DataFrame) (feature : Option String) (bins : ℕ),
      df.selectNumeric.cols ≠ [] → 0 < df.nRows →
      (distribution_playbook df feature bins).analysis_context.feature =
        some (autoFeature df.selectNumeric.cols preferredDistribution
          feature)) ∧
    (∀ (df : DataFrame) (feature outcome : Option String) (bins : ℕ),
      df.selectNumeric.cols ≠ [] → 0 < df.nRows →
      (feature_outcome_profile_playbook df feature outcome
          bins).analysis_context.feature =
        some (autoFeature df.selectNumeric.cols preferredProfile feature)) ∧
    (∀ (df : DataFrame) (feature sc : Option String),
      df.selectNumeric.cols ≠ [] → 0 < df.nRows →
      (segmented_distribution_playbook df feature
          sc).analysis_context.feature =
        some (autoFeature df.selectNumeric.cols preferredProfile feature)) := by
  refine ⟨⟨by decide, by decide, by decide, by decide⟩, ?_, ?_, ?_⟩
  · intro df feature bins hcols hrows
    simp only [distribution_playbook]
    split_ifs with h0 hser
    · rw [Bool.or_eq_true, List.isEmpty_iff, beq_iff_eq] at h0
      rcases h0 with h | h
      · exact absurd h hcols
      · exact absurd (show df.nRows = 0 from h) (by omega)
    · rfl
    · rfl
  · intro df feature outcome bins hcols hrows
    simp only [feature_outcome_profile_playbook]
    split_ifs with h0 h1 h2 h3
    · rw [Bool.or_eq_true, List.isEmpty_iff, beq_iff_eq] at h0
      rcases h0 with h | h
      · exact absurd h hcols
      · exact absurd (show df.nRows = 0 from h) (by omega)
    all_goals rfl
  · intro df feature sc hcols hrows
    simp only [segmented_distribution_playbook]
    split_ifs with h0 h1
    · rw [Bool.or_eq_true, beq_iff_eq, List.isEmpty_iff] at h0
      rcases h0 with h | h
      · exact absurd h (by omega)
      · exact absurd h (by
          intro hnil
          exact hcols (by simp [DataFrame.selectNumeric, hnil]))
    · rw [Bool.or_eq_true, List.isEmpty_iff, beq_iff_eq] at h1
      rcases h1 with h | h
      · exact absurd h hcols
      · exact absurd (show df.nRows = 0 from h) (by omega)
    · split
      · rfl
      · split <;> rfl

/-- Witness for C3: the iff and shape parts instantiated on the scenario
frame. -/
theorem correlation_insufficient_data_iff_witness :
    ("value" ∉ (frameC3.selectNumeric.dropnaRows).colNames ∨
      (frameC3.selectNumeric.dropnaRows).nRows < 5) ∧
    (correlation_playbook frameC3 "value" 5).visualization.vtype = "table" :=
  ⟨by decide,
    ((correlation_insufficient_data_iff.1 frameC3 "value" 5).2 (by decide)).1⟩

/-- One-row frame over the `[Other, Insulin]` columns. -/
def frameC9w : DataFrame := ⟨1, frameC9cols⟩

/-- Witness for C9 (amended) at a concrete frame. -/
theorem auto_selection_per_playbook_witness :
    (frameC9w.selectNumeric.cols ≠ [] ∧ 0 < frameC9w.nRows) ∧
    (distribution_playbook frameC9w none 10).analysis_context.feature =
      some (autoFeature frameC9w.selectNumeric.cols preferredDistribution
        none) :=
  ⟨⟨by decide, by decide⟩,
    auto_selection_per_playbook.2.1 frameC9w none 10 (by decide) (by decide)⟩

/-! ### C7: secondary playbooks -/

lemma secondary_fold_eq (df : DataFrame) (p : AnalysisReq)
    (names : List String) (acc : List Viz) :
    names.foldl (fun acc name =>
      match runSecondary df p name with
      | some sp => acc ++ [sp.visualization]
      | none => acc) acc =
    acc ++ names.filterMap (fun n =>
      (runSecondary df p n).map PlaybookResult.visualization) := by
  induction names generalizing acc with
  | nil => simp
  | cons n ns ih =>
    rw [List.foldl_cons, List.filterMap_cons]
    cases h : runSecondary df p n with
    | none => simp only [h, Option.map_none']; rw [ih]
    | some sp => simp only [h, Option.map_some']; rw [ih, List.append_assoc]; rfl

/-- C7: the dispatcher runs every recognised secondary playbook on the
same filtered row set as the primary playbook and appends exactly its
visualization (not its analysis context) to the extra-visualizations
list, skipping unrecognised names; and the primary visualization and
analysis context do not depend on the secondary list at all.  (Secondary
failures are exceptions in the source; the embedded playbooks are total,
so the skip arm of the try/except is vacuous here.) -/
theorem dispatcher_secondary_playbooks (df : DataFrame) (p : AnalysisReq) :
    (executeQueryCore df p).extra_visualizations =
      p.secondary_playbooks.filterMap (fun n =>
        (runSecondary (applyFilters df p) p n).map
          PlaybookResult.visualization) ∧
    (executeQueryCore df p).visualization =
      (runPrimary (applyFilters df p) p).visualization ∧
    (executeQueryCore df p).analysis_context =
      (runPrimary (applyFilters df p) p).analysis_context ∧
    ∀ s : List String,
      (executeQueryCore df { p with secondary_playbooks := s }).visualization =
        (executeQueryCore df p).visualization ∧
      (executeQueryCore df
          { p with secondary_playbooks := s }).analysis_context =
        (executeQueryCore df p).analysis_context := by
  refine ⟨?_, rfl, rfl, fun s => ⟨rfl, rfl⟩⟩
  show (executeQueryCore df p).extra_visualizations = _
  simp only [executeQueryCore]
  rw [secondary_fold_eq]
  exact List.nil_append _

/-! ### C2: correlation bar chart ordering, rounding and sign -/

lemma varS_nonneg (xs : List ℚ) : 0 ≤ varS xs := by
  unfold varS
  apply List.sum_nonneg
  intro x hx
  obtain ⟨y, _, rfl⟩ := List.mem_map.mp hx
  exact mul_self_nonneg _

lemma corrEntries_mem_var {nf : DataFrame} {outc : String} {e : CorrEntry}
    (h : e ∈ corrEntries nf outc) :
    e.varF ≠ 0 ∧ varS (outcomeVals nf outc) ≠ 0 := by
  simp only [corrEntries] at h
  split at h
  · exact absurd h (List.not_mem_nil e)
  · next hvo =>
    obtain ⟨hm, hf⟩ := List.mem_filter.mp h
    exact ⟨by simpa using hf, hvo⟩

lemma abs_corr_le_of_key {ca cb va vb vo : ℚ} (hva : 0 < va) (hvb : 0 < vb)
    (hvo : 0 < vo) (h : cb * cb / vb ≤ ca * ca / va) :
    |(cb : ℝ)| / (Real.sqrt vb * Real.sqrt vo) ≤
      |(ca : ℝ)| / (Real.sqrt va * Real.sqrt vo) := by
  have hq : cb * cb * va ≤ ca * ca * vb := by
    rw [div_le_div_iff₀ hvb hva] at h
    linarith
  have hr : ((cb : ℝ)) * cb * va ≤ ((ca : ℝ)) * ca * vb := by
    have := hq
    push_cast at this ⊢
    exact_mod_cast this
  have hva' : (0 : ℝ) < (va : ℝ) := by exact_mod_cast hva
  have hvb' : (0 : ℝ) < (vb : ℝ) := by exact_mod_cast hvb
  have hvo' : (0 : ℝ) < (vo : ℝ) := by exact_mod_cast hvo
  have hs : |(cb : ℝ)| * Real.sqrt va ≤ |(ca : ℝ)| * Real.sqrt vb := by
    have h1 : Real.sqrt ((cb : ℝ) * cb * va) ≤ Real.sqrt ((ca : ℝ) * ca * vb) :=
      Real.sqrt_le_sqrt hr
    rwa [Real.sqrt_mul (mul_self_nonneg _), Real.sqrt_mul (mul_self_nonneg _),
      Real.sqrt_mul_self_eq_abs, Real.sqrt_mul_self_eq_abs] at h1
  have hsa : (0 : ℝ) < Real.sqrt va := Real.sqrt_pos.mpr hva'
  have hsb : (0 : ℝ) < Real.sqrt vb := Real.sqrt_pos.mpr hvb'
  have hso : (0 : ℝ) < Real.sqrt vo := Real.sqrt_pos.mpr hvo'
  rw [div_le_div_iff₀ (by positivity) (by positivity)]
  calc |(cb : ℝ)| * (Real.sqrt va * Real.sqrt vo)
      = (|(cb : ℝ)| * Real.sqrt va) * Real.sqrt vo := by ring
    _ ≤ (|(ca : ℝ)| * Real.sqrt vb) * Real.sqrt vo :=
        mul_le_mul_of_nonneg_right hs (le_of_lt hso)
    _ = |(ca : ℝ)| * (Real.sqrt vb * Real.sqrt vo) := by ring

lemma roundR2_pos {x : ℝ} (h : (0 : ℚ) < roundR 2 x) : 0 < x := by
  unfold roundR at h
  have h2 : (0 : ℚ) < ((round (x * (10 : ℝ) ^ 2) : ℤ) : ℚ) := by
    by_contra hn
    push_neg at hn
    have : ((round (x * (10 : ℝ) ^ 2) : ℤ) : ℚ) / (10 : ℚ) ^ 2 ≤ 0 :=
      div_nonpos_of_nonpos_of_nonneg hn (by positivity)
    linarith
  have h3 : (1 : ℤ) ≤ round (x * (10 : ℝ) ^ 2) := by exact_mod_cast h2
  rw [round_eq] at h3
  have h4 : (1 : ℝ) ≤ x * (10 : ℝ) ^ 2 + 1 / 2 := by
    have := Int.le_floor.mp h3
    exact_mod_cast this
  nlinarith

lemma roundR2_neg {x : ℝ} (h : roundR 2 x < (0 : ℚ)) : x < 0 := by
  unfold roundR at h
  have h2 : ((round (x * (10 : ℝ) ^ 2) : ℤ) : ℚ) < 0 := by
    by_contra hn
    push_neg at hn
    have : (0 : ℚ) ≤ ((round (x * (10 : ℝ) ^ 2) : ℤ) : ℚ) / (10 : ℚ) ^ 2 :=
      div_nonneg hn (by positivity)
    linarith
  have h3 : round (x * (10 : ℝ) ^ 2) ≤ -1 := by
    have hz : round (x * (10 : ℝ) ^ 2) < 0 := by exact_mod_cast h2
    omega
  rw [round_eq] at h3
  have h4 : x * (10 : ℝ) ^ 2 + 1 / 2 < 0 := by
    have hf := Int.floor_le (x * (10 : ℝ) ^ 2 + 1 / 2)
    have : (⌊x * (10 : ℝ) ^ 2 + 1 / 2⌋ : ℝ) ≤ -1 := by exact_mod_cast h3
    nlinarith [Int.lt_floor_add_one (x * (10 : ℝ) ^ 2 + 1 / 2)]
  nlinarith

lemma corrEntries_mem_exists {nf : DataFrame} {outc : String}
    {e : CorrEntry} (h : e ∈ corrEntries nf outc) :
    ∃ c ∈ nf.cols, c.name = e.name ∧
      e.cov = covS c.qcells (outcomeVals nf outc) ∧
      e.varF = varS c.qcells := by
  simp only [corrEntries] at h
  split at h
  · exact absurd h (List.not_mem_nil e)
  · obtain ⟨hm, _⟩ := List.mem_filter.mp h
    obtain ⟨c, hc, rfl⟩ := List.mem_map.mp hm
    exact ⟨c, (List.mem_filter.mp hc).1, rfl, rfl, rfl⟩

lemma corrTop_mem_entries {nf : DataFrame} {outc : String} {tn : ℕ}
    {e : CorrEntry} (h : e ∈ (corrSorted nf outc).take tn) :
    e ∈ corrEntries nf outc := by
  have h1 : e ∈ corrSorted nf outc := List.take_subset tn _ h
  unfold corrSorted at h1
  exact (List.mem_insertionSort corrGE).mp h1

lemma entry_varF_pos {nf : DataFrame} {outc : String} {e : CorrEntry}
    (h : e ∈ corrEntries nf outc) : 0 < e.varF := by
  obtain ⟨c, _, _, _, hv⟩ := corrEntries_mem_exists h
  rw [hv]
  exact lt_of_le_of_ne (varS_nonneg _)
    (Ne.symm (hv ▸ (corrEntries_mem_var h).1))

lemma entry_varO_pos {nf : DataFrame} {outc : String} {e : CorrEntry}
    (h : e ∈ corrEntries nf outc) : 0 < varS (outcomeVals nf outc) :=
  lt_of_le_of_ne (varS_nonneg _) (Ne.symm (corrEntries_mem_var h).2)

lemma corrTop_pairwise (nf : DataFrame) (outc : String) (tn : ℕ) :
    ((corrSorted nf outc).take tn).Pairwise (fun a b =>
      |entryCorrR nf outc b| ≤ |entryCorrR nf outc a|) := by
  have hs : ((corrSorted nf outc).take tn).Pairwise corrGE :=
    (List.sorted_insertionSort corrGE (corrEntries nf outc)).sublist
      (List.take_sublist _ _)
  refine hs.imp_of_mem ?_
  intro a b ha hb hr
  have ha' := corrTop_mem_entries ha
  have hb' := corrTop_mem_entries hb
  have hva := entry_varF_pos ha'
  have hvb := entry_varF_pos hb'
  have hvo := entry_varO_pos ha'
  simp only [entryCorrR, abs_div,
    abs_of_nonneg (mul_nonneg (Real.sqrt_nonneg _) (Real.sqrt_nonneg _))]
  exact abs_corr_le_of_key hva hvb hvo hr

lemma colNames_keepRows (df : DataFrame) (idx : List ℕ) :
    (df.keepRows idx).colNames = df.colNames := by
  simp only [DataFrame.keepRows, DataFrame.colNames, List.map_map]
  rfl

lemma colNames_dropna (df : DataFrame) :
    df.dropnaRows.colNames = df.colNames :=
  colNames_keepRows df _

lemma nf_names_nodup {df : DataFrame} (hw : df.wf) :
    ((df.selectNumeric.dropnaRows).colNames).Nodup := by
  rw [colNames_dropna]
  exact hw.2.sublist ((List.filter_sublist df.cols).map Column.name)

lemma findCol_eq_of_nodup {df : DataFrame} {c : Column} {n : String}
    (hnd : df.colNames.Nodup) (hc : c ∈ df.cols) (hn : c.name = n) :
    df.findCol n = some c := by
  unfold DataFrame.findCol
  have hex : (df.cols.find? (fun c' => c'.name == n)).isSome :=
    List.find?_isSome.mpr ⟨c, hc, by simp [hn]⟩
  obtain ⟨c', hc'⟩ := Option.isSome_iff_exists.mp hex
  have hm := List.mem_of_find?_eq_some hc'
  have hp : c'.name = n := by simpa using List.find?_some hc'
  have hpw : df.cols.Pairwise (fun a b => a.name ≠ b.name) :=
    List.pairwise_map.mp hnd
  have hsym : Symmetric (fun a b : Column => a.name ≠ b.name) :=
    fun x y hxy e => hxy e.symm
  have hcc : c' = c := by
    by_contra hne
    exact hpw.forall hsym hm hc hne (hp.trans hn.symm)
  rw [hc', hcc]

lemma trueCorr_eq_entry {df : DataFrame} {outc : String} (hw : df.wf)
    {e : CorrEntry}
    (h : e ∈ corrEntries (df.selectNumeric.dropnaRows) outc) :
    trueCorrWithOutcome df outc e.name =
      entryCorrR (df.selectNumeric.dropnaRows) outc e := by
  obtain ⟨c, hc, hn, hcov, hvf⟩ := corrEntries_mem_exists h
  have hf := findCol_eq_of_nodup (nf_names_nodup hw) hc hn
  simp only [trueCorrWithOutcome, entryCorrR, corrR, hf, Option.map_some',
    Option.getD_some, hcov, hvf]

/-- C2 amended: whenever `correlation_playbook` produces a bar
visualization on a well-formed frame, it returns at most `top_n` labels,
ordered by descending absolute true Pearson correlation with the
outcome; each reported value is that correlation rounded to 2 decimal
places; and each *nonzero* reported value has the sign of the true
Pearson correlation (a true correlation smaller than 0.005 in magnitude
rounds to 0.0, whose sign is neither positive nor negative — the only
way the original sign claim can fail). -/
theorem correlation_bar_top (df : DataFrame) (outc : String) (tn : ℕ)
    (hw : df.wf)
    (hbar : (correlation_playbook df outc tn).visualization.vtype = "bar") :
    ((corrSorted (df.selectNumeric.dropnaRows) outc).take tn).length ≤ tn ∧
    ((corrSorted (df.selectNumeric.dropnaRows) outc).take tn).Pairwise
      (fun a b =>
        |trueCorrWithOutcome df outc b.name| ≤
          |trueCorrWithOutcome df outc a.name|) ∧
    (correlation_playbook df outc tn).visualization.data =
      VizData.bar
        (((corrSorted (df.selectNumeric.dropnaRows) outc).take tn).map
          CorrEntry.name)
        (((corrSorted (df.selectNumeric.dropnaRows) outc).take tn).map
          (fun e => roundR 2 (trueCorrWithOutcome df outc e.name))) ∧
    (correlation_playbook df outc tn).analysis_context.top_correlations =
      ((corrSorted (df.selectNumeric.dropnaRows) outc).take tn).map
        (fun e => (e.name, roundR 2 (trueCorrWithOutcome df outc e.name))) ∧
    ∀ p ∈ (correlation_playbook df outc tn).analysis_context.top_correlations,
      ((0 : ℚ) < p.2 → 0 < trueCorrWithOutcome df outc p.1) ∧
      (p.2 < (0 : ℚ) → trueCorrWithOutcome df outc p.1 < 0) := by
  have hEq : ∀ e ∈ (corrSorted (df.selectNumeric.dropnaRows) outc).take tn,
      roundR 2 (trueCorrWithOutcome df outc e.name) =
        roundR 2 (entryCorrR (df.selectNumeric.dropnaRows) outc e) :=
    fun e he => by rw [trueCorr_eq_entry hw (corrTop_mem_entries he)]
  have hpw : ((corrSorted (df.selectNumeric.dropnaRows) outc).take tn).Pairwise
      (fun a b =>
        |trueCorrWithOutcome df outc b.name| ≤
          |trueCorrWithOutcome df outc a.name|) := by
    refine (corrTop_pairwise (df.selectNumeric.dropnaRows) outc tn).imp_of_mem ?_
    intro a b ha hb hr
    rwa [trueCorr_eq_entry hw (corrTop_mem_entries ha),
      trueCorr_eq_entry hw (corrTop_mem_entries hb)]
  have htop : (correlation_playbook df outc tn).analysis_context.top_correlations =
      ((corrSorted (df.selectNumeric.dropnaRows) outc).take tn).map
        (fun e => (e.name, roundR 2 (trueCorrWithOutcome df outc e.name))) := by
    simp only [correlation_playbook] at hbar ⊢
    split_ifs at hbar ⊢ with h1 h2
    · simp [emptyTableViz] at hbar
    · simp [emptyTableViz] at hbar
    · show (((corrSorted _ outc).take tn).map CorrEntry.name).zip
          (((corrSorted _ outc).take tn).map
            (fun e => roundR 2 (entryCorrR _ outc e))) = _
      rw [List.zip_map']
      exact (List.map_congr_left (fun e he => by rw [hEq e he])).symm
  refine ⟨List.length_take_le tn _, hpw, ?_, htop, ?_⟩
  · simp only [correlation_playbook] at hbar ⊢
    split_ifs at hbar ⊢ with h1 h2
    · simp [emptyTableViz] at hbar
    · simp [emptyTableViz] at hbar
    · show VizData.bar _ _ = _
      rw [List.map_congr_left (fun e he => (hEq e he).symm)]
  · intro p hp
    rw [htop] at hp
    obtain ⟨e, he, rfl⟩ := List.mem_map.mp hp
    exact ⟨fun h => roundR2_pos h, fun h => roundR2_neg h⟩

/-- Feature column engineered so its Pearson correlation with the
outcome is exactly 1/846 (small and positive). -/
def colX846 : Column :=
  ⟨"X", true, [Cell.num 713, Cell.num (-1431), Cell.num 1430,
    Cell.num (-1429), Cell.num 717]⟩

def colO846 : Column :=
  ⟨"Outcome", true, [Cell.num 1, Cell.num 2, Cell.num 3, Cell.num 4,
    Cell.num 5]⟩

def frame846 : DataFrame := ⟨5, [colX846, colO846]⟩

/-- C2 as stated (the sign conjunct): whenever the playbook produces a
bar visualization, the sign of each reported value equals the sign of
the true Pearson correlation of that feature with the outcome. -/
def corrSignClaim (df : DataFrame) (outc : String) (tn : ℕ) : Prop :=
  (correlation_playbook df outc tn).visualization.vtype = "bar" →
    ∀ p ∈ (correlation_playbook df outc tn).analysis_context.top_correlations,
      ((0 : ℚ) < p.2 ↔ 0 < trueCorrWithOutcome df outc p.1) ∧
      (p.2 < (0 : ℚ) ↔ trueCorrWithOutcome df outc p.1 < 0)

lemma frame846_nf : frame846.selectNumeric.dropnaRows = frame846 := by decide

lemma frame846_ovals : outcomeVals frame846 "Outcome" = [1, 2, 3, 4, 5] := by
  decide

lemma frame846_entries :
    corrEntries frame846 "Outcome" = [⟨"X", 10, 7157160⟩] := by
  have hov := frame846_ovals
  unfold corrEntries
  rw [hov]
  simp [frame846, colX846, colO846, Column.qcells, Cell.toQ,
    List.filter_cons, CorrEntry.mk.injEq]
  norm_num [varS, covS, qmean]

lemma frame846_sorted :
    corrSorted frame846 "Outcome" = [⟨"X", 10, 7157160⟩] := by
  unfold corrSorted
  rw [frame846_entries]
  rfl

lemma sqrt_846 :
    Real.sqrt ((7157160 : ℚ) : ℝ) * Real.sqrt ((10 : ℚ) : ℝ) = 8460 := by
  rw [← Real.sqrt_mul (by positivity)]
  have h1 : ((7157160 : ℚ) : ℝ) * ((10 : ℚ) : ℝ) = 8460 ^ 2 := by
    push_cast
    norm_num
  rw [h1]
  exact Real.sqrt_sq (by norm_num)

lemma frame846_varO : varS (outcomeVals frame846 "Outcome") = 10 := by
  rw [frame846_ovals]
  norm_num [varS, qmean]

lemma frame846_entryCorr :
    entryCorrR frame846 "Outcome" ⟨"X", 10, 7157160⟩ = 10 / 8460 := by
  simp only [entryCorrR, frame846_varO]
  rw [sqrt_846]
  norm_num

lemma frame846_trueCorr :
    trueCorrWithOutcome frame846 "Outcome" "X" = 10 / 8460 := by
  have hfx : frame846.findCol "X" = some colX846 := by decide
  have hq : colX846.qcells = [713, -1431, 1430, -1429, 717] := by decide
  simp only [trueCorrWithOutcome, frame846_nf, hfx, Option.map_some',
    Option.getD_some, corrR, hq, frame846_ovals]
  have hcov : covS [(713 : ℚ), -1431, 1430, -1429, 717] [1, 2, 3, 4, 5] = 10 := by
    norm_num [covS, qmean]
  have hvx : varS [(713 : ℚ), -1431, 1430, -1429, 717] = 7157160 := by
    norm_num [varS, qmean]
  have hv5 : varS [(1 : ℚ), 2, 3, 4, 5] = 10 := by
    norm_num [varS, qmean]
  rw [hcov, hvx, hv5, sqrt_846]
  norm_num

lemma roundR2_of_846 : roundR 2 ((10 : ℝ) / 8460) = 0 := by
  unfold roundR
  have h0 : round ((10 : ℝ) / 8460 * (10 : ℝ) ^ 2) = 0 := by
    rw [round_eq, Int.floor_eq_iff]
    push_cast
    constructor <;> norm_num
  rw [h0]
  norm_num

lemma frame846_bar :
    (correlation_playbook frame846 "Outcome" 5).visualization.vtype = "bar" := by
  simp only [correlation_playbook, frame846_nf]
  rw [if_neg (by decide), if_neg (by rw [frame846_sorted]; simp)]

lemma frame846_top :
    (correlation_playbook frame846 "Outcome" 5).analysis_context.top_correlations =
      [("X", (0 : ℚ))] := by
  simp only [correlation_playbook, frame846_nf]
  rw [if_neg (by decide), if_neg (by rw [frame846_sorted]; simp)]
  simp only [frame846_sorted]
  simp only [List.take, List.map, List.zip_cons_cons, List.zip_nil_right]
  rw [frame846_entryCorr, roundR2_of_846]

/-- C2 counterexample: on `frame846` the only feature has true Pearson
correlation exactly 1/846 > 0 with the outcome, the playbook produces a
bar chart, and the reported value is round(1/846, 2) = 0.0, whose sign
(zero) differs from the positive sign of the true correlation. -/
theorem correlation_sign_counterexample :
    ¬ corrSignClaim frame846 "Outcome" 5 := by
  intro h
  have hm : (("X", (0 : ℚ))) ∈
      (correlation_playbook frame846 "Outcome" 5).analysis_context.top_correlations := by
    rw [frame846_top]
    exact List.mem_cons_self _ _
  have hpos : 0 < trueCorrWithOutcome frame846 "Outcome" "X" := by
    rw [frame846_trueCorr]
    norm_num
  have := (h frame846_bar _ hm).1.mpr hpos
  exact absurd this (by norm_num)

/-- Simple bar-producing frame for the C2 witness: one feature perfectly
correlated with the outcome. -/
def frameC2w : DataFrame :=
  ⟨5, [⟨"A", true, [Cell.num 2, Cell.num 4, Cell.num 6, Cell.num 8,
        Cell.num 10]⟩,
       ⟨"Outcome", true, [Cell.num 1, Cell.num 2, Cell.num 3, Cell.num 4,
        Cell.num 5]⟩]⟩

lemma frameC2w_nf : frameC2w.selectNumeric.dropnaRows = frameC2w := by decide

lemma frameC2w_entries :
    corrEntries frameC2w "Outcome" = [⟨"A", 20, 40⟩] := by
  have hov : outcomeVals frameC2w "Outcome" = [1, 2, 3, 4, 5] := by decide
  unfold corrEntries
  rw [hov]
  simp [frameC2w, Column.qcells, Cell.toQ, List.filter_cons,
    CorrEntry.mk.injEq]
  norm_num [varS, covS, qmean]

lemma frameC2w_sorted :
    corrSorted frameC2w "Outcome" = [⟨"A", 20, 40⟩] := by
  unfold corrSorted
  rw [frameC2w_entries]
  rfl

lemma frameC2w_bar :
    (correlation_playbook frameC2w "Outcome" 5).visualization.vtype = "bar" := by
  simp only [correlation_playbook, frameC2w_nf]
  rw [if_neg (by decide), if_neg (by rw [frameC2w_sorted]; simp)]

/-- Witness for C2 (amended) at a concrete bar-producing frame. -/
theorem correlation_bar_top_witness :
    (frameC2w.wf ∧
      (correlation_playbook frameC2w "Outcome" 5).visualization.vtype =
        "bar") ∧
    ((corrSorted (frameC2w.selectNumeric.dropnaRows) "Outcome").take 5).length ≤
      5 :=
  ⟨⟨by decide, frameC2w_bar⟩,
    (correlation_bar_top frameC2w "Outcome" 5 (by decide) frameC2w_bar).1⟩
